import Mathlib

/-!
Shallow embedding of the smart-unicom/cache repository (Go).

The backend store (ristretto / redis / redis cluster) is modelled as an
association list from physical keys to (bytes, ttl); byte slices are
modelled as `String`, `time.Duration` as `Int` (nanoseconds).  Each Go
method of the three cache implementations (`redisCache`,
`redisClusterCache`, `memoryCache`) is translated into an explicit
state-passing function over this store.
-/

namespace Cache

/-- time.Duration, in nanoseconds. -/
abbrev Duration := Int

/-- DefaultExpireTime = time.Hour * 24 (cache.go). -/
def DefaultExpireTime : Duration := 86400000000000

/-- DefaultNotFoundExpireTime = time.Minute * 10 (cache.go). -/
def DefaultNotFoundExpireTime : Duration := 600000000000

/-- NotFoundPlaceholder = "*" (cache.go). -/
def NotFoundPlaceholder : String := "*"

/-- Errors returned by the cache operations (the Go code wraps them in
formatted strings; only the category matters here). -/
inductive CacheErr where
  | encodeErr
  | keyErr
  | writeErr
  deriving DecidableEq, Repr

/-- The backend key/value store: physical key, stored bytes, ttl.
Newer writes are consed at the front and shadow older entries. -/
abbrev Store := List (String × String × Duration)

/-- A write into the backend (redis SET / ristretto SetWithTTL). -/
def storeSet (s : Store) (k v : String) (ttl : Duration) : Store :=
  (k, v, ttl) :: s

/-- A read from the backend (redis GET / ristretto Get); `none` is a
backend miss (redis.Nil / ristretto ok=false). -/
def storeGet : Store → String → Option (String × Duration)
  | [], _ => none
  | (k2, v, t) :: rest, k => if k2 = k then some (v, t) else storeGet rest k

/-- Backend delete of one key. -/
def storeDel (s : Store) (k : String) : Store :=
  s.filter (fun e => e.1 ≠ k)

/-- Backend delete of a batch of keys (redis DEL with several args). -/
def storeDelAll (s : Store) (ks : List String) : Store :=
  ks.foldl (fun acc k => storeDel acc k) s

/-- Redis EXPIRE: update the ttl of the visible entry for a key. -/
def storeExpire : Store → String → Duration → Store
  | [], _, _ => []
  | (k2, v, t) :: rest, k, ttl =>
    if k2 = k then (k2, v, ttl) :: rest else (k2, v, t) :: storeExpire rest k ttl

/-- BuildCacheKey (redis.go): empty key is an error; an empty prefix
yields the key unchanged; otherwise strings.Join([prefix, key], ":"). -/
def buildCacheKey (keyPfx key : String) : Option String :=
  if key = "" then none
  else some (if keyPfx = "" then key else keyPfx ++ ":" ++ key)

/-- The per-instance data shared by redisCache, redisClusterCache and
memoryCache: key prefix, resolved encoding (Marshal/Unmarshal with the
instance's Encoding already applied), configured default ttl and the
newObject factory. -/
structure CacheInst (α : Type) where
  keyPfx : String
  marshal : α → Option String
  unmarshal : String → α → Option α
  defaultExpireTime : Duration
  newObject : α

/-- Outcome of Get: ok carries the decoded value written into target. -/
inductive GetResult (α : Type) where
  | ok (v : α)
  | keyErr
  | backendMiss
  | placeholderHit
  | decodeErr
  deriving DecidableEq, Repr

/-- redisCache.Set: marshal, build the physical key, substitute the
placeholder for zero-length bytes, then client.Set. -/
def redisSet {α : Type} (c : CacheInst α) (store : Store) (key : String)
    (val : α) (expiration : Duration) : Store × Option CacheErr :=
  match c.marshal val with
  | none => (store, some .encodeErr)
  | some buf =>
    match buildCacheKey c.keyPfx key with
    | none => (store, some .keyErr)
    | some cacheKey =>
      let buf2 := if buf = "" then NotFoundPlaceholder else buf
      (storeSet store cacheKey buf2 expiration, none)

/-- redisCache.Get: build the physical key, read; a backend miss is
surfaced unchanged; empty or placeholder bytes give ErrPlaceholder
before any decoding; otherwise Unmarshal into the target. -/
def redisGet {α : Type} (c : CacheInst α) (store : Store) (key : String)
    (target : α) : GetResult α :=
  match buildCacheKey c.keyPfx key with
  | none => .keyErr
  | some cacheKey =>
    match storeGet store cacheKey with
    | none => .backendMiss
    | some (dataBytes, _) =>
      if dataBytes = "" ∨ dataBytes = NotFoundPlaceholder then .placeholderHit
      else
        match c.unmarshal dataBytes target with
        | none => .decodeErr
        | some v => .ok v

/-- redisCache.MultiSet pair building: marshal and build each key
independently; a failing entry is logged and skipped.  Note: no
zero-length substitution happens here, unlike Set. -/
def buildPairs {α : Type} (c : CacheInst α) (valueMap : List (String × α)) :
    List (String × String) :=
  valueMap.foldl (fun paris kv =>
    match c.marshal kv.2 with
    | none => paris
    | some buf =>
      match buildCacheKey c.keyPfx kv.1 with
      | none => paris
      | some cacheKey => paris ++ [(cacheKey, buf)]) []

/-- Pipeline MSET phase: write every surviving pair (no ttl yet). -/
def msetPhase (store : Store) (paris : List (String × String)) : Store :=
  paris.foldl (fun s p => storeSet s p.1 p.2 0) store

/-- Pipeline EXPIRE phase: give every written key the batch ttl. -/
def expirePhase (store : Store) (paris : List (String × String))
    (expiration : Duration) : Store :=
  paris.foldl (fun s p => storeExpire s p.1 expiration) store

/-- redisCache.MultiSet: empty map is a no-op; otherwise build the
surviving pairs, MSET them, then EXPIRE each written key. -/
def redisMultiSet {α : Type} (c : CacheInst α) (store : Store)
    (valueMap : List (String × α)) (expiration : Duration) :
    Store × Option CacheErr :=
  if valueMap.length = 0 then (store, none)
  else
    let paris := buildPairs c valueMap
    (expirePhase (msetPhase store paris) paris expiration, none)

/-- Physical keys for all requested keys; any build failure aborts the
whole MultiGet on the redis backends. -/
def buildAllKeys (keyPfx : String) : List String → Option (List String)
  | [] => some []
  | k :: rest =>
    match buildCacheKey keyPfx k with
    | none => none
    | some ck =>
      match buildAllKeys keyPfx rest with
      | none => none
      | some cks => some (ck :: cks)

/-- reflect.Value.SetMapIndex: insert or overwrite a map entry. -/
def mapInsert {α : Type} : List (String × α) → String → α → List (String × α)
  | [], k, v => [(k, v)]
  | (k2, v2) :: rest, k, v =>
    if k2 = k then (k, v) :: rest else (k2, v2) :: mapInsert rest k v

/-- redisCache.MultiGet: resolve all physical keys up front (failure
aborts), MGET, then per slot: nil is skipped, empty/placeholder bytes
are skipped, decode failures are skipped, and decoded values are
inserted under the physical key cacheKeys[i]. -/
def redisMultiGet {α : Type} (c : CacheInst α) (store : Store)
    (keys : List String) (valueMap : List (String × α)) :
    Except CacheErr (List (String × α)) :=
  if keys.length = 0 then .ok valueMap
  else
    match buildAllKeys c.keyPfx keys with
    | none => .error .keyErr
    | some cacheKeys =>
      .ok (cacheKeys.foldl (fun vm ck =>
        match storeGet store ck with
        | none => vm
        | some (dataBytes, _) =>
          if dataBytes = "" ∨ dataBytes = NotFoundPlaceholder then vm
          else
            match c.unmarshal dataBytes c.newObject with
            | none => vm
            | some object => mapInsert vm ck object) valueMap)

/-- redisCache.Del key slice: cacheKeys := make([]string, len(keys)) and
on a build failure the loop continues, leaving the zero value "" in
that slot. -/
def redisDelKeys (keyPfx : String) (keys : List String) : List String :=
  keys.map (fun key =>
    match buildCacheKey keyPfx key with
    | none => ""
    | some cacheKey => cacheKey)

/-- redisCache.Del: no-op on an empty list, otherwise one batched DEL
over the whole pre-allocated slice (failed slots included as ""). -/
def redisDel {α : Type} (c : CacheInst α) (store : Store)
    (keys : List String) : Store × Option CacheErr :=
  if keys.length = 0 then (store, none)
  else (storeDelAll store (redisDelKeys c.keyPfx keys), none)

/-- redisCache.SetCacheWithNotFound: write NotFoundPlaceholder with the
fixed DefaultNotFoundExpireTime; the instance default ttl is unused. -/
def redisSetCacheWithNotFound {α : Type} (c : CacheInst α) (store : Store)
    (key : String) : Store × Option CacheErr :=
  match buildCacheKey c.keyPfx key with
  | none => (store, some .keyErr)
  | some cacheKey =>
    (storeSet store cacheKey NotFoundPlaceholder DefaultNotFoundExpireTime, none)

/-- redisClusterCache.Set (body identical to redisCache.Set). -/
def clusterSet {α : Type} (c : CacheInst α) (store : Store) (key : String)
    (val : α) (expiration : Duration) : Store × Option CacheErr :=
  match c.marshal val with
  | none => (store, some .encodeErr)
  | some buf =>
    match buildCacheKey c.keyPfx key with
    | none => (store, some .keyErr)
    | some cacheKey =>
      let buf2 := if buf = "" then NotFoundPlaceholder else buf
      (storeSet store cacheKey buf2 expiration, none)

/-- redisClusterCache.Get (body identical to redisCache.Get). -/
def clusterGet {α : Type} (c : CacheInst α) (store : Store) (key : String)
    (target : α) : GetResult α :=
  match buildCacheKey c.keyPfx key with
  | none => .keyErr
  | some cacheKey =>
    match storeGet store cacheKey with
    | none => .backendMiss
    | some (dataBytes, _) =>
      if dataBytes = "" ∨ dataBytes = NotFoundPlaceholder then .placeholderHit
      else
        match c.unmarshal dataBytes target with
        | none => .decodeErr
        | some v => .ok v

/-- redisClusterCache.MultiSet (body identical to redisCache.MultiSet). -/
def clusterMultiSet {α : Type} (c : CacheInst α) (store : Store)
    (valueMap : List (String × α)) (expiration : Duration) :
    Store × Option CacheErr :=
  if valueMap.length = 0 then (store, none)
  else
    let paris := buildPairs c valueMap
    (expirePhase (msetPhase store paris) paris expiration, none)

/-- redisClusterCache.MultiGet (body identical to redisCache.MultiGet). -/
def clusterMultiGet {α : Type} (c : CacheInst α) (store : Store)
    (keys : List String) (valueMap : List (String × α)) :
    Except CacheErr (List (String × α)) :=
  if keys.length = 0 then .ok valueMap
  else
    match buildAllKeys c.keyPfx keys with
    | none => .error .keyErr
    | some cacheKeys =>
      .ok (cacheKeys.foldl (fun vm ck =>
        match storeGet store ck with
        | none => vm
        | some (dataBytes, _) =>
          if dataBytes = "" ∨ dataBytes = NotFoundPlaceholder then vm
          else
            match c.unmarshal dataBytes c.newObject with
            | none => vm
            | some object => mapInsert vm ck object) valueMap)

/-- redisClusterCache.Del (body identical to redisCache.Del). -/
def clusterDel {α : Type} (c : CacheInst α) (store : Store)
    (keys : List String) : Store × Option CacheErr :=
  if keys.length = 0 then (store, none)
  else (storeDelAll store (redisDelKeys c.keyPfx keys), none)

/-- redisClusterCache.SetCacheWithNotFound (identical body). -/
def clusterSetCacheWithNotFound {α : Type} (c : CacheInst α) (store : Store)
    (key : String) : Store × Option CacheErr :=
  match buildCacheKey c.keyPfx key with
  | none => (store, some .keyErr)
  | some cacheKey =>
    (storeSet store cacheKey NotFoundPlaceholder DefaultNotFoundExpireTime, none)

/-- memoryCache.Set: marshal, substitute the placeholder for zero-length
bytes, build the physical key, SetWithTTL and Wait (the ristretto write
is modelled as succeeding). -/
def memorySet {α : Type} (c : CacheInst α) (store : Store) (key : String)
    (val : α) (expiration : Duration) : Store × Option CacheErr :=
  match c.marshal val with
  | none => (store, some .encodeErr)
  | some buf =>
    let buf2 := if buf = "" then NotFoundPlaceholder else buf
    match buildCacheKey c.keyPfx key with
    | none => (store, some .keyErr)
    | some cacheKey => (storeSet store cacheKey buf2 expiration, none)

/-- memoryCache.Get: a ristretto miss is converted to CacheNotFound
(redis.Nil); empty or placeholder bytes give ErrPlaceholder before any
decoding; otherwise Unmarshal into the target.  (The data-type check on
the stored interface value cannot fail in this typed model.) -/
def memoryGet {α : Type} (c : CacheInst α) (store : Store) (key : String)
    (target : α) : GetResult α :=
  match buildCacheKey c.keyPfx key with
  | none => .keyErr
  | some cacheKey =>
    match storeGet store cacheKey with
    | none => .backendMiss
    | some (dataBytes, _) =>
      if dataBytes = "" ∨ dataBytes = NotFoundPlaceholder then .placeholderHit
      else
        match c.unmarshal dataBytes target with
        | none => .decodeErr
        | some v => .ok v

/-- memoryCache.Del: no-op on an empty list; otherwise only keys[0] is
inspected — its build failure is returned, its success deletes it. -/
def memoryDel {α : Type} (c : CacheInst α) (store : Store)
    (keys : List String) : Store × Option CacheErr :=
  if keys.length = 0 then (store, none)
  else
    match buildCacheKey c.keyPfx (keys.headD "") with
    | none => (store, some .keyErr)
    | some cacheKey => (storeDel store cacheKey, none)

/-- memoryCache.MultiSet: Set each entry in turn and return the first
error, aborting the rest of the batch. -/
def memoryMultiSet {α : Type} (c : CacheInst α) (store : Store)
    (valueMap : List (String × α)) (expiration : Duration) :
    Store × Option CacheErr :=
  match valueMap with
  | [] => (store, none)
  | kv :: rest =>
    match memorySet c store kv.1 kv.2 expiration with
    | (s2, some e) => (s2, some e)
    | (s2, none) => memoryMultiSet c s2 rest expiration

/-- memoryCache.MultiGet: Get each key one at a time into a fresh
newObject; any error skips the key; a decoded value is inserted under
the logical key (not the physical one).  The call always returns nil. -/
def memoryMultiGet {α : Type} (c : CacheInst α) (store : Store)
    (keys : List String) (valueMap : List (String × α)) :
    List (String × α) :=
  keys.foldl (fun vm key =>
    match memoryGet c store key c.newObject with
    | .ok object => mapInsert vm key object
    | _ => vm) valueMap

/-- memoryCache.SetCacheWithNotFound: write the placeholder bytes with
the fixed DefaultNotFoundExpireTime. -/
def memorySetCacheWithNotFound {α : Type} (c : CacheInst α) (store : Store)
    (key : String) : Store × Option CacheErr :=
  match buildCacheKey c.keyPfx key with
  | none => (store, some .keyErr)
  | some cacheKey =>
    (storeSet store cacheKey NotFoundPlaceholder DefaultNotFoundExpireTime, none)

/-! ## Encoding layer (encoding.go Marshal/Unmarshal) -/

/-- A Go interface value passed to Marshal/Unmarshal: whether it is a
pointer (or interface) kind, and whether it implements the
encoding.BinaryMarshaler / BinaryUnmarshaler capabilities, with the
results those methods would produce. -/
structure GoVal where
  isPtr : Bool
  marshalBinary : Option (Except String String)
  unmarshalBinary : Option (String → Except String Unit)

/-- A non-nil Encoding implementation. -/
structure EncImpl where
  marshal : GoVal → Except String String
  unmarshal : String → GoVal → Except String Unit

/-- ErrNotAPointer (encoding.go). -/
def ErrNotAPointerMsg : String := "not a pointer"

/-- Outcome of the package-level Marshal: a byte slice, an error, or a
runtime panic from calling a method on the nil Encoding interface. -/
inductive MOut where
  | ok (data : String)
  | err (e : String)
  | nilPanic
  deriving DecidableEq, Repr

def exceptToMOut : Except String String → MOut
  | .ok d => .ok d
  | .error e => .err e

/-- Marshal (encoding.go): non-pointer values fail with ErrNotAPointer;
with a nil Encoding a BinaryMarshaler is used directly, and a value
without it dereferences the nil interface (panic); with an Encoding,
its result is used, falling back to BinaryMarshaler on failure. -/
def MarshalGo (e : Option EncImpl) (v : GoVal) : MOut :=
  if v.isPtr = false then .err ErrNotAPointerMsg
  else
    match v.marshalBinary, e with
    | some r, none => exceptToMOut r
    | none, none => .nilPanic
    | bm, some enc =>
      match enc.marshal v with
      | .ok data => .ok data
      | .error er =>
        match bm with
        | some r => exceptToMOut r
        | none => .err er

/-- Outcome of the package-level Unmarshal. -/
inductive UOut where
  | ok
  | err (e : String)
  | nilPanic
  deriving DecidableEq, Repr

def exceptToUOut : Except String Unit → UOut
  | .ok _ => .ok
  | .error e => .err e

/-- Unmarshal (encoding.go), mirror of Marshal with BinaryUnmarshaler. -/
def UnmarshalGo (e : Option EncImpl) (data : String) (v : GoVal) : UOut :=
  if v.isPtr = false then .err ErrNotAPointerMsg
  else
    match v.unmarshalBinary, e with
    | some f, none => exceptToUOut (f data)
    | none, none => .nilPanic
    | ub, some enc =>
      match enc.unmarshal data v with
      | .ok _ => .ok
      | .error er =>
        match ub with
        | some f => exceptToUOut (f data)
        | none => .err er

/-! ## Provider construction and Manager (provider.go) -/

/-- RedisConfig (provider.go). -/
structure RedisConf where
  addr : String
  password : String
  db : Int
  poolSize : Int
  minIdleConns : Int
  maxIdleConns : Int
  connMaxLifetime : Duration
  dialTimeout : Duration
  readTimeout : Duration
  writeTimeout : Duration
  deriving DecidableEq, Repr

/-- RedisClusterConfig (provider.go). -/
structure RedisClusterConf where
  addrs : List String
  password : String
  poolSize : Int
  minIdleConns : Int
  maxIdleConns : Int
  connMaxLifetime : Duration
  dialTimeout : Duration
  readTimeout : Duration
  writeTimeout : Duration
  deriving DecidableEq, Repr

/-- MemoryConfig (provider.go). -/
structure MemoryConf where
  numCounters : Int
  maxCost : Int
  bufferItems : Int
  deriving DecidableEq, Repr

/-- Config (provider.go); the cache-type selector is implicit in which
constructor is invoked. -/
structure Config where
  keyPfx : String
  defaultExpireTime : Duration
  memory : Option MemoryConf
  redis : Option RedisConf
  redisCluster : Option RedisClusterConf

/-- The zero-valued tunables of the Redis sub-config are replaced by the
documented defaults (newRedisProvider, provider.go). -/
def applyRedisDefaults (rc : RedisConf) : RedisConf :=
  { rc with
    poolSize := if rc.poolSize = 0 then 10 else rc.poolSize
    minIdleConns := if rc.minIdleConns = 0 then 2 else rc.minIdleConns
    connMaxLifetime := if rc.connMaxLifetime = 0 then 3600000000000 else rc.connMaxLifetime
    dialTimeout := if rc.dialTimeout = 0 then 5000000000 else rc.dialTimeout
    readTimeout := if rc.readTimeout = 0 then 3000000000 else rc.readTimeout
    writeTimeout := if rc.writeTimeout = 0 then 3000000000 else rc.writeTimeout }

/-- Same defaults for the cluster sub-config (newRedisClusterProvider). -/
def applyClusterDefaults (rcc : RedisClusterConf) : RedisClusterConf :=
  { rcc with
    poolSize := if rcc.poolSize = 0 then 10 else rcc.poolSize
    minIdleConns := if rcc.minIdleConns = 0 then 2 else rcc.minIdleConns
    connMaxLifetime := if rcc.connMaxLifetime = 0 then 3600000000000 else rcc.connMaxLifetime
    dialTimeout := if rcc.dialTimeout = 0 then 5000000000 else rcc.dialTimeout
    readTimeout := if rcc.readTimeout = 0 then 3000000000 else rcc.readTimeout
    writeTimeout := if rcc.writeTimeout = 0 then 3000000000 else rcc.writeTimeout }

/-- Observable result of newRedisProvider: the client options handed to
redis.NewClient plus the cache-instance fields. -/
structure RedisProviderM where
  options : RedisConf
  keyPfx : String
  defaultExpireTime : Duration
  deriving DecidableEq, Repr

/-- Observable result of newRedisClusterProvider. -/
structure RedisClusterProviderM where
  options : RedisClusterConf
  keyPfx : String
  defaultExpireTime : Duration
  deriving DecidableEq, Repr

/-- newRedisProvider (provider.go): a nil Redis block is the only
construction error; the Addr field is never validated. -/
def newRedisProvider (cfg : Config) : Except String RedisProviderM :=
  match cfg.redis with
  | none => .error "redis config must not be nil"
  | some rc =>
    .ok { options := applyRedisDefaults rc
          keyPfx := cfg.keyPfx
          defaultExpireTime := cfg.defaultExpireTime }

/-- newRedisClusterProvider (provider.go): a nil cluster block or an
empty Addrs list is a construction error. -/
def newRedisClusterProvider (cfg : Config) : Except String RedisClusterProviderM :=
  match cfg.redisCluster with
  | none => .error "redis cluster config must not be nil"
  | some rcc =>
    if rcc.addrs.length = 0 then .error "redis cluster addrs must not be empty"
    else
      .ok { options := applyClusterDefaults rcc
            keyPfx := cfg.keyPfx
            defaultExpireTime := cfg.defaultExpireTime }

def exceptIsOk {ε δ : Type} : Except ε δ → Bool
  | .ok _ => true
  | .error _ => false

/-- The error string Manager.CloseAll wraps a failing Close in. -/
def closeWrap (name e : String) : String :=
  "close cache provider " ++ name ++ " failed: " ++ e

/-- Manager.CloseAll over the registered providers, each modelled as
(name, result of Close): the first component records every provider
whose Close was invoked, the second the returned lastErr. -/
def closeAll (ps : List (String × Option String)) : List String × Option String :=
  ps.foldl (fun acc p =>
    (acc.1 ++ [p.1],
      match p.2 with
      | none => acc.2
      | some e => some (closeWrap p.1 e))) ([], none)

/-- The wrapped close errors in registry order. -/
def closeErrs (ps : List (String × Option String)) : List String :=
  ps.filterMap (fun p => p.2.map (fun e => closeWrap p.1 e))

/-! ## Concrete instances used by witnesses and counterexamples -/

/-- A concrete string cache with prefix "app" and the identity codec. -/
def cApp : CacheInst String :=
  { keyPfx := "app"
    marshal := fun s => some s
    unmarshal := fun d _ => some d
    defaultExpireTime := DefaultExpireTime
    newObject := "" }

/-- A concrete string cache with an empty prefix whose codec fails on
the value "BAD". -/
def cBad : CacheInst String :=
  { keyPfx := ""
    marshal := fun s => if s = "BAD" then none else some s
    unmarshal := fun d _ => some d
    defaultExpireTime := 0
    newObject := "" }

/-! ## Theorems for the claims -/

/-- C5: BuildCacheKey returns prefix ++ ":" ++ key for non-empty prefix
and key, returns the key unchanged for an empty prefix, and fails with
the empty-key error for an empty key regardless of prefix. -/
theorem buildCacheKey_spec (keyPfx key : String) :
    (key ≠ "" → keyPfx ≠ "" → buildCacheKey keyPfx key = some (keyPfx ++ ":" ++ key)) ∧
    (key ≠ "" → buildCacheKey "" key = some key) ∧
    buildCacheKey keyPfx "" = none := by
  refine ⟨?_, ?_, ?_⟩
  · intro hk hp
    simp [buildCacheKey, hk, hp]
  · intro hk
    simp [buildCacheKey, hk]
  · simp [buildCacheKey]

/-- Witness for C5 at prefix "app" and key "u:1". -/
theorem buildCacheKey_spec_witness :
    buildCacheKey "app" "u:1" = some "app:u:1" ∧
    buildCacheKey "" "u:1" = some "u:1" ∧
    buildCacheKey "app" "" = none := by
  have h := buildCacheKey_spec "app" "u:1"
  exact ⟨h.1 (by decide) (by decide), h.2.1 (by decide), h.2.2⟩

/-- C1: on each backend, after SetCacheWithNotFound succeeds on a
non-empty key, Get on the same key returns ErrPlaceholder — which is
distinct from the backend-miss and decode-error outcomes — for every
target and every unmarshal function, so the target is never written. -/
theorem setCacheWithNotFound_get_placeholderHit {α : Type} (c : CacheInst α)
    (store : Store) (k : String) (target : α) (h : k ≠ "") :
    (redisSetCacheWithNotFound c store k).2 = none ∧
    redisGet c (redisSetCacheWithNotFound c store k).1 k target = .placeholderHit ∧
    (clusterSetCacheWithNotFound c store k).2 = none ∧
    clusterGet c (clusterSetCacheWithNotFound c store k).1 k target = .placeholderHit ∧
    (memorySetCacheWithNotFound c store k).2 = none ∧
    memoryGet c (memorySetCacheWithNotFound c store k).1 k target = .placeholderHit := by
  refine ⟨?_, ?_, ?_, ?_, ?_, ?_⟩ <;>
    simp [redisSetCacheWithNotFound, clusterSetCacheWithNotFound,
      memorySetCacheWithNotFound, redisGet, clusterGet, memoryGet,
      buildCacheKey, storeSet, storeGet, NotFoundPlaceholder, h]

/-- Witness for C1 at key "u:2" on the concrete cApp instance. -/
theorem setCacheWithNotFound_get_placeholderHit_witness :
    redisGet cApp (redisSetCacheWithNotFound cApp [] "u:2").1 "u:2" "old" =
      .placeholderHit ∧
    memoryGet cApp (memorySetCacheWithNotFound cApp [] "u:2").1 "u:2" "old" =
      .placeholderHit := by
  have h := setCacheWithNotFound_get_placeholderHit cApp [] "u:2" "old" (by decide)
  exact ⟨h.2.1, h.2.2.2.2.2⟩

/-- C6: on each backend, SetCacheWithNotFound on a non-empty key writes
exactly the placeholder bytes with the fixed DefaultNotFoundExpireTime,
and the outcome is independent of the instance's configured default
ttl; no caller-supplied expiration exists in its signature. -/
theorem setCacheWithNotFound_fixed_ttl {α : Type} (c : CacheInst α)
    (store : Store) (k ck : String) (d : Duration)
    (h : buildCacheKey c.keyPfx k = some ck) :
    (redisSetCacheWithNotFound c store k).2 = none ∧
    storeGet (redisSetCacheWithNotFound c store k).1 ck =
      some (NotFoundPlaceholder, DefaultNotFoundExpireTime) ∧
    storeGet (clusterSetCacheWithNotFound c store k).1 ck =
      some (NotFoundPlaceholder, DefaultNotFoundExpireTime) ∧
    storeGet (memorySetCacheWithNotFound c store k).1 ck =
      some (NotFoundPlaceholder, DefaultNotFoundExpireTime) ∧
    redisSetCacheWithNotFound { c with defaultExpireTime := d } store k =
      redisSetCacheWithNotFound c store k ∧
    clusterSetCacheWithNotFound { c with defaultExpireTime := d } store k =
      clusterSetCacheWithNotFound c store k ∧
    memorySetCacheWithNotFound { c with defaultExpireTime := d } store k =
      memorySetCacheWithNotFound c store k := by
  refine ⟨?_, ?_, ?_, ?_, ?_, ?_, ?_⟩ <;>
    simp [redisSetCacheWithNotFound, clusterSetCacheWithNotFound,
      memorySetCacheWithNotFound, storeSet, storeGet, h]

/-- Witness for C6 at the cApp instance and key "u:2". -/
theorem setCacheWithNotFound_fixed_ttl_witness :
    storeGet (redisSetCacheWithNotFound cApp [] "u:2").1 "app:u:2" =
      some (NotFoundPlaceholder, DefaultNotFoundExpireTime) ∧
    storeGet (memorySetCacheWithNotFound cApp [] "u:2").1 "app:u:2" =
      some (NotFoundPlaceholder, DefaultNotFoundExpireTime) := by
  have h := setCacheWithNotFound_fixed_ttl cApp [] "u:2" "app:u:2" 7 (by decide)
  exact ⟨h.2.1, h.2.2.2.1⟩

/-- C2 counterexample: redisCache.MultiSet does not substitute the
placeholder before storage — a value whose encoding is zero-length is
stored as the empty byte slice, not as NotFoundPlaceholder. -/
theorem multiSet_zero_length_no_substitution :
    storeGet (redisMultiSet cApp [] [("k", "")] 7).1 "app:k" = some ("", 7) ∧
    some (("" : String), (7 : Duration)) ≠ some (NotFoundPlaceholder, (7 : Duration)) := by
  constructor
  · rfl
  · decide

/-- C2 amended: Set on every backend substitutes the placeholder for
zero-length encodings before storage (and memory MultiSet, which
delegates to Set, does too), but the redis MultiSet path stores the
zero-length bytes unchanged; in every case a subsequent Get returns
ErrPlaceholder because the read path treats empty bytes like the
placeholder, so the read observation matches SetCacheWithNotFound. -/
theorem zero_length_set_placeholder_semantics {α : Type} (c : CacheInst α)
    (store : Store) (k ck : String) (v : α) (ttl : Duration) (target : α)
    (hk : buildCacheKey c.keyPfx k = some ck) (hm : c.marshal v = some "") :
    storeGet (redisSet c store k v ttl).1 ck = some (NotFoundPlaceholder, ttl) ∧
    redisGet c (redisSet c store k v ttl).1 k target = .placeholderHit ∧
    storeGet (clusterSet c store k v ttl).1 ck = some (NotFoundPlaceholder, ttl) ∧
    clusterGet c (clusterSet c store k v ttl).1 k target = .placeholderHit ∧
    storeGet (memorySet c store k v ttl).1 ck = some (NotFoundPlaceholder, ttl) ∧
    memoryGet c (memorySet c store k v ttl).1 k target = .placeholderHit ∧
    storeGet (memoryMultiSet c store [(k, v)] ttl).1 ck =
      some (NotFoundPlaceholder, ttl) ∧
    storeGet (redisMultiSet c store [(k, v)] ttl).1 ck = some ("", ttl) ∧
    redisGet c (redisMultiSet c store [(k, v)] ttl).1 k target = .placeholderHit := by
  refine ⟨?_, ?_, ?_, ?_, ?_, ?_, ?_, ?_, ?_⟩ <;>
    simp [redisSet, clusterSet, memorySet, redisMultiSet, memoryMultiSet,
      buildPairs, msetPhase, expirePhase, redisGet, clusterGet, memoryGet,
      storeSet, storeGet, storeExpire, NotFoundPlaceholder, hk, hm]

/-- Witness for C2 amended at the cApp instance, key "k", value "". -/
theorem zero_length_set_placeholder_semantics_witness :
    storeGet (redisSet cApp [] "k" "" 9).1 "app:k" = some (NotFoundPlaceholder, 9) ∧
    redisGet cApp (redisMultiSet cApp [] [("k", "")] 9).1 "k" "old" = .placeholderHit := by
  have h := zero_length_set_placeholder_semantics cApp [] "k" "app:k" "" 9 "old"
    (by decide) (by decide)
  exact ⟨h.1, h.2.2.2.2.2.2.2.2⟩

/-- C3 counterexample: memoryCache.MultiSet with a poisoned first entry
returns an error for the whole call and never writes the second entry,
refuting the every-backend skip-and-continue claim. -/
theorem memoryMultiSet_aborts_on_poisoned_entry :
    (memoryMultiSet cBad [] [("k1", "BAD"), ("k2", "v2")] 5).2 =
      some CacheErr.encodeErr ∧
    storeGet (memoryMultiSet cBad [] [("k1", "BAD"), ("k2", "v2")] 5).1 "k2" =
      none := by
  constructor
  · rfl
  · rfl

/-- C3 amended: on the redis and cluster backends an entry whose encode
or key construction fails is skipped and the batch proceeds exactly as
if the entry were absent; the in-process backend instead aborts at the
first failing entry, returning its error with the store unchanged up to
that entry and the rest of the batch unattempted. -/
theorem multiSet_poisoned_entry_behavior {α : Type} (c : CacheInst α)
    (store : Store) (kbad : String) (vbad : α) (rest : List (String × α))
    (ttl : Duration) (hb : c.marshal vbad = none ∨ kbad = "") :
    redisMultiSet c store ((kbad, vbad) :: rest) ttl =
      redisMultiSet c store rest ttl ∧
    clusterMultiSet c store ((kbad, vbad) :: rest) ttl =
      clusterMultiSet c store rest ttl ∧
    ∃ e, memoryMultiSet c store ((kbad, vbad) :: rest) ttl = (store, some e) := by
  have hpairs : buildPairs c ((kbad, vbad) :: rest) = buildPairs c rest := by
    unfold buildPairs
    rw [List.foldl_cons]
    rcases hb with h1 | h1
    · simp [h1]
    · subst h1
      cases hm : c.marshal vbad <;> simp [buildCacheKey]
  refine ⟨?_, ?_, ?_⟩
  · cases rest with
    | nil =>
      have hnil : buildPairs c [(kbad, vbad)] = [] := by
        rw [hpairs]; rfl
      simp [redisMultiSet, hnil, msetPhase, expirePhase]
    | cons r rs =>
      simp [redisMultiSet, hpairs]
  · cases rest with
    | nil =>
      have hnil : buildPairs c [(kbad, vbad)] = [] := by
        rw [hpairs]; rfl
      simp [clusterMultiSet, hnil, msetPhase, expirePhase]
    | cons r rs =>
      simp [clusterMultiSet, hpairs]
  · rcases hb with h1 | h1
    · exact ⟨.encodeErr, by simp [memoryMultiSet, memorySet, h1]⟩
    · subst h1
      cases hm : c.marshal vbad
      · exact ⟨.encodeErr, by simp [memoryMultiSet, memorySet, hm]⟩
      · exact ⟨.keyErr, by simp [memoryMultiSet, memorySet, hm, buildCacheKey]⟩

/-- Witness for C3 amended: poisoned entry ("k1", "BAD") followed by a
good entry, on the concrete cBad instance. -/
theorem multiSet_poisoned_entry_behavior_witness :
    redisMultiSet cBad [] [("k1", "BAD"), ("k2", "v2")] 5 =
      redisMultiSet cBad [] [("k2", "v2")] 5 ∧
    ∃ e, memoryMultiSet cBad [] [("k1", "BAD"), ("k2", "v2")] 5 = ([], some e) := by
  have h := multiSet_poisoned_entry_behavior cBad [] "k1" "BAD" [("k2", "v2")] 5
    (Or.inl (by decide))
  exact ⟨h.1, h.2.2⟩

/-- C4 counterexample: memoryCache.MultiGet inserts a decoded value
under the logical key supplied by the caller, not the physical
(prefixed) key, refuting the every-backend physical-key claim. -/
theorem memoryMultiGet_uses_logical_key :
    memoryMultiGet cApp [("app:k", "v", 0)] ["k"] [] = [("k", "v")] ∧
    ("k" : String) ≠ "app:k" := by
  constructor
  · rfl
  · decide

/-- C4 amended: the redis and cluster backends place a successfully
decoded value into the result mapping under the physical (prefixed)
key; the in-process backend places it under the logical key. -/
theorem multiGet_result_key_behavior {α : Type} (c : CacheInst α)
    (store : Store) (k ck d : String) (t : Duration) (v : α)
    (vm : List (String × α))
    (hk : buildCacheKey c.keyPfx k = some ck)
    (hs : storeGet store ck = some (d, t))
    (h1 : d ≠ "") (h2 : d ≠ NotFoundPlaceholder)
    (hu : c.unmarshal d c.newObject = some v) :
    redisMultiGet c store [k] vm = .ok (mapInsert vm ck v) ∧
    clusterMultiGet c store [k] vm = .ok (mapInsert vm ck v) ∧
    memoryMultiGet c store [k] vm = mapInsert vm k v := by
  refine ⟨?_, ?_, ?_⟩ <;>
    simp [redisMultiGet, clusterMultiGet, memoryMultiGet, memoryGet,
      buildAllKeys, hk, hs, h1, h2, hu]

/-- Witness for C4 amended: cApp with prefix "app", stored value "v" at
physical key "app:k". -/
theorem multiGet_result_key_behavior_witness :
    redisMultiGet cApp [("app:k", "v", 0)] ["k"] [] = .ok [("app:k", "v")] ∧
    memoryMultiGet cApp [("app:k", "v", 0)] ["k"] [] = [("k", "v")] := by
  have h := multiGet_result_key_behavior cApp [("app:k", "v", 0)] "k" "app:k"
    "v" 0 "v" [] (by decide) (by decide) (by decide) (by decide) (by decide)
  exact ⟨h.1, h.2.2⟩

/-- When every key builds, the Del slice is the list of built keys. -/
theorem redisDelKeys_all_ok (keyPfx : String) (keys : List String)
    (h : ∀ k ∈ keys, k ≠ "") :
    redisDelKeys keyPfx keys = keys.filterMap (buildCacheKey keyPfx) := by
  induction keys with
  | nil => rfl
  | cons x xs ih =>
    have hx : x ≠ "" := h x (by simp)
    have ihh := ih (fun k hk => h k (by simp [hk]))
    simp [redisDelKeys, List.filterMap_cons, buildCacheKey, hx] at ihh ⊢
    exact ihh

/-- C7 counterexample: the batched deletion is not issued over exactly
the successfully built physical keys — a key whose construction fails
leaves the zero value "" in the pre-allocated slice, so the empty
string is deleted too.  With keys ["", "a"] the issued slice is
["", "a"], while the successfully built keys are just ["a"], and a
pre-existing backend entry at key "" is deleted by the call. -/
theorem redisDel_empty_slot_counterexample :
    redisDelKeys "" ["", "a"] = ["", "a"] ∧
    (["", "a"].filterMap (buildCacheKey "")) = ["a"] ∧
    redisDelKeys "" ["", "a"] ≠ ["", "a"].filterMap (buildCacheKey "") ∧
    (redisDel cBad [("", "x", 0)] ["", "a"]).1 = [] ∧
    storeDelAll [("", "x", 0)] (["", "a"].filterMap (buildCacheKey "")) =
      [("", "x", 0)] := by
  refine ⟨rfl, rfl, by decide, rfl, rfl⟩

/-- C7 amended: for the remote backends a construction failure leaves
"" in the pre-allocated key slice, so the single batched deletion is
issued over a slice of the input's length holding the physical key at
each successful position and "" at each failed one (when every key
builds this equals the successfully built keys); the in-process
backend's Del inspects only its first argument. -/
theorem del_construction_failure_behavior {α : Type} (c : CacheInst α)
    (store : Store) (k : String) (rest keys : List String) :
    memoryDel c store (k :: rest) = memoryDel c store [k] ∧
    (redisDelKeys c.keyPfx keys).length = keys.length ∧
    ((∀ k2 ∈ keys, k2 ≠ "") →
      redisDelKeys c.keyPfx keys = keys.filterMap (buildCacheKey c.keyPfx)) ∧
    ("" ∈ keys → "" ∈ redisDelKeys c.keyPfx keys) ∧
    (keys.length ≠ 0 →
      redisDel c store keys =
        (storeDelAll store (redisDelKeys c.keyPfx keys), none) ∧
      clusterDel c store keys =
        (storeDelAll store (redisDelKeys c.keyPfx keys), none)) := by
  refine ⟨?_, ?_, ?_, ?_, ?_⟩
  · simp [memoryDel]
  · simp [redisDelKeys]
  · exact redisDelKeys_all_ok c.keyPfx keys
  · intro h
    simp only [redisDelKeys, List.mem_map]
    exact ⟨"", h, by simp [buildCacheKey]⟩
  · intro h
    constructor <;> simp [redisDel, clusterDel, h]

/-- Witness for C7 amended on the cApp instance. -/
theorem del_construction_failure_behavior_witness :
    memoryDel cApp [] ("a" :: ["b"]) = memoryDel cApp [] ["a"] ∧
    redisDelKeys cApp.keyPfx ["x", "y"] =
      ["x", "y"].filterMap (buildCacheKey cApp.keyPfx) ∧
    "" ∈ redisDelKeys cApp.keyPfx ["", "y"] := by
  refine ⟨(del_construction_failure_behavior cApp [] "a" ["b"] ["x", "y"]).1,
    (del_construction_failure_behavior cApp [] "a" ["b"] ["x", "y"]).2.2.1
      (by decide),
    (del_construction_failure_behavior cApp [] "a" ["b"] ["", "y"]).2.2.2.1
      (by decide)⟩

/-- A single-node config whose Redis block is present but has an empty
Addr (all tunables zero). -/
def cfgEmptyAddr : Config :=
  { keyPfx := ""
    defaultExpireTime := 0
    memory := none
    redis := some
      { addr := ""
        password := ""
        db := 0
        poolSize := 0
        minIdleConns := 0
        maxIdleConns := 0
        connMaxLifetime := 0
        dialTimeout := 0
        readTimeout := 0
        writeTimeout := 0 }
    redisCluster := none }

/-- A config with no Redis block and a cluster block with empty Addrs. -/
def cfgEmptyAddrs : Config :=
  { keyPfx := ""
    defaultExpireTime := 0
    memory := none
    redis := none
    redisCluster := some
      { addrs := []
        password := ""
        poolSize := 0
        minIdleConns := 0
        maxIdleConns := 0
        connMaxLifetime := 0
        dialTimeout := 0
        readTimeout := 0
        writeTimeout := 0 } }

/-- A cluster config with a non-empty Addrs list. -/
def cfgCluster : Config :=
  { cfgEmptyAddrs with
    redisCluster := some
      { addrs := ["localhost:7000"]
        password := ""
        poolSize := 0
        minIdleConns := 0
        maxIdleConns := 0
        connMaxLifetime := 0
        dialTimeout := 0
        readTimeout := 0
        writeTimeout := 0 } }

/-- C8 counterexample: newRedisProvider with a present Redis block whose
Addr is the empty string returns a provider instead of failing — the
single-node path never validates the address. -/
theorem newRedisProvider_accepts_empty_addr :
    exceptIsOk (newRedisProvider cfgEmptyAddr) = true ∧
    cfgEmptyAddr.redis.map RedisConf.addr = some "" := by
  exact ⟨rfl, rfl⟩

/-- C8 amended: cluster construction fails when the cluster block is
missing or its Addrs list is empty and succeeds otherwise; single-node
construction fails only when the Redis block is missing — an empty Addr
string is accepted and a provider is returned. -/
theorem provider_construction_spec (cfg : Config) (rc : RedisConf)
    (rcc : RedisClusterConf) :
    (cfg.redis = none → exceptIsOk (newRedisProvider cfg) = false) ∧
    (cfg.redis = some rc → exceptIsOk (newRedisProvider cfg) = true) ∧
    (cfg.redisCluster = none →
      exceptIsOk (newRedisClusterProvider cfg) = false) ∧
    (cfg.redisCluster = some rcc → rcc.addrs = [] →
      exceptIsOk (newRedisClusterProvider cfg) = false) ∧
    (cfg.redisCluster = some rcc → rcc.addrs ≠ [] →
      exceptIsOk (newRedisClusterProvider cfg) = true) := by
  refine ⟨?_, ?_, ?_, ?_, ?_⟩ <;> intro h
  · simp [newRedisProvider, h, exceptIsOk]
  · simp [newRedisProvider, h, exceptIsOk]
  · simp [newRedisClusterProvider, h, exceptIsOk]
  · intro ha
    simp [newRedisClusterProvider, h, ha, exceptIsOk]
  · intro ha
    simp [newRedisClusterProvider, h, exceptIsOk, List.length_eq_zero, ha]

/-- Witness for C8 amended on the three concrete configurations. -/
theorem provider_construction_spec_witness :
    exceptIsOk (newRedisProvider cfgEmptyAddrs) = false ∧
    exceptIsOk (newRedisClusterProvider cfgEmptyAddrs) = false ∧
    exceptIsOk (newRedisClusterProvider cfgCluster) = true := by
  refine ⟨?_, ?_, ?_⟩
  · exact (provider_construction_spec cfgEmptyAddrs
      { addr := "", password := "", db := 0, poolSize := 0, minIdleConns := 0,
        maxIdleConns := 0, connMaxLifetime := 0, dialTimeout := 0,
        readTimeout := 0, writeTimeout := 0 }
      { addrs := [], password := "", poolSize := 0, minIdleConns := 0,
        maxIdleConns := 0, connMaxLifetime := 0, dialTimeout := 0,
        readTimeout := 0, writeTimeout := 0 }).1 rfl
  · exact (provider_construction_spec cfgEmptyAddrs
      { addr := "", password := "", db := 0, poolSize := 0, minIdleConns := 0,
        maxIdleConns := 0, connMaxLifetime := 0, dialTimeout := 0,
        readTimeout := 0, writeTimeout := 0 }
      { addrs := [], password := "", poolSize := 0, minIdleConns := 0,
        maxIdleConns := 0, connMaxLifetime := 0, dialTimeout := 0,
        readTimeout := 0, writeTimeout := 0 }).2.2.2.1 rfl rfl
  · exact (provider_construction_spec cfgCluster
      { addr := "", password := "", db := 0, poolSize := 0, minIdleConns := 0,
        maxIdleConns := 0, connMaxLifetime := 0, dialTimeout := 0,
        readTimeout := 0, writeTimeout := 0 }
      { addrs := ["localhost:7000"], password := "", poolSize := 0,
        minIdleConns := 0, maxIdleConns := 0, connMaxLifetime := 0,
        dialTimeout := 0, readTimeout := 0,
        writeTimeout := 0 }).2.2.2.2 rfl (by decide)

/-- C9: Manager.CloseAll invokes Close on every registered provider
even when some Close calls fail; it returns exactly the last wrapped
close error in iteration order (earlier errors are overwritten, not
accumulated), and nil when every Close succeeds. -/
theorem closeAll_spec (ps : List (String × Option String)) :
    (closeAll ps).1 = ps.map Prod.fst ∧
    (closeAll ps).2 = (closeErrs ps).getLast? ∧
    ((∀ p ∈ ps, p.2 = none) → (closeAll ps).2 = none) := by
  have hmain : (closeAll ps).1 = ps.map Prod.fst ∧
      (closeAll ps).2 = (closeErrs ps).getLast? := by
    induction ps using List.reverseRecOn with
    | nil => exact ⟨rfl, rfl⟩
    | append_singleton ps p ih =>
      unfold closeAll at ih ⊢
      rw [List.foldl_append]
      unfold closeErrs at ih ⊢
      rw [List.filterMap_append]
      cases hp : p.2 with
      | none =>
        simp only [List.foldl_cons, List.foldl_nil, hp]
        refine ⟨?_, ?_⟩
        · rw [ih.1, List.map_append]
          rfl
        · rw [ih.2]
          simp [List.filterMap, hp]
      | some e =>
        simp only [List.foldl_cons, List.foldl_nil, hp]
        refine ⟨?_, ?_⟩
        · rw [ih.1, List.map_append]
          rfl
        · have hcat : (List.filterMap
              (fun q => Option.map (fun e2 => closeWrap q.1 e2) q.2) [p]) =
              [closeWrap p.1 e] := by
            simp [List.filterMap, hp]
          rw [hcat, List.getLast?_concat]
  refine ⟨hmain.1, hmain.2, ?_⟩
  intro hall
  have hnil : closeErrs ps = [] := by
    unfold closeErrs
    rw [List.filterMap_eq_nil_iff]
    intro p hp
    rw [hall p hp]
    rfl
  rw [hmain.2, hnil]
  rfl

/-- Witness for C9: two providers, the first failing and the second
succeeding; both are closed and the returned error is the last one. -/
theorem closeAll_spec_witness :
    (closeAll [("a", some "boom"), ("b", none)]).1 = ["a", "b"] ∧
    (closeAll [("a", some "boom"), ("b", none)]).2 =
      (closeErrs [("a", some "boom"), ("b", none)]).getLast? ∧
    (closeAll [("c", none)]).2 = none := by
  refine ⟨(closeAll_spec [("a", some "boom"), ("b", none)]).1,
    (closeAll_spec [("a", some "boom"), ("b", none)]).2.1,
    (closeAll_spec [("c", none)]).2.2 ?_⟩
  intro p hp
  simp at hp
  rw [hp]

/-- A pointer value implementing neither serialization capability. -/
def vPtrNoBM : GoVal :=
  { isPtr := true, marshalBinary := none, unmarshalBinary := none }

/-- A non-pointer value implementing neither capability. -/
def vNonPtr : GoVal :=
  { isPtr := false, marshalBinary := none, unmarshalBinary := none }

/-- C10 counterexample: with a nil Encoding and no binary-marshaler
capability, Marshal still reaches an error return — ErrNotAPointer —
when the value is not a pointer, so the error return is not reached
only under the claimed precondition. -/
theorem marshal_error_without_capability :
    MarshalGo none vNonPtr = .err ErrNotAPointerMsg ∧
    (none : Option EncImpl).isSome = false ∧
    vNonPtr.marshalBinary.isSome = false := by
  exact ⟨rfl, rfl, rfl⟩

/-- C10 amended: with a nil Encoding, Marshal on a pointer value that
lacks the binary-marshaler capability dereferences the nil interface (a
panic), and Unmarshal behaves the same for a target lacking the
binary-unmarshaler capability; for pointer inputs an error return is
reached only when an encoding is supplied or the value implements the
capability, while a non-pointer input returns ErrNotAPointer with
neither. -/
theorem marshal_nil_encoding_panic_spec (v : GoVal) (e : Option EncImpl)
    (data : String) :
    (v.isPtr = true → v.marshalBinary = none → MarshalGo none v = .nilPanic) ∧
    (v.isPtr = true → v.unmarshalBinary = none →
      UnmarshalGo none data v = .nilPanic) ∧
    (v.isPtr = true → ∀ er, MarshalGo e v = .err er →
      e.isSome = true ∨ v.marshalBinary.isSome = true) ∧
    (v.isPtr = true → ∀ er, UnmarshalGo e data v = .err er →
      e.isSome = true ∨ v.unmarshalBinary.isSome = true) ∧
    (v.isPtr = false → MarshalGo e v = .err ErrNotAPointerMsg) := by
  refine ⟨?_, ?_, ?_, ?_, ?_⟩
  · intro hp hb
    simp [MarshalGo, hp, hb]
  · intro hp hb
    simp [UnmarshalGo, hp, hb]
  · intro hp er her
    cases he : e with
    | some enc => exact Or.inl rfl
    | none =>
      cases hb : v.marshalBinary with
      | some r => exact Or.inr rfl
      | none =>
        subst he
        simp [MarshalGo, hp, hb] at her
  · intro hp er her
    cases he : e with
    | some enc => exact Or.inl rfl
    | none =>
      cases hb : v.unmarshalBinary with
      | some r => exact Or.inr rfl
      | none =>
        subst he
        simp [UnmarshalGo, hp, hb] at her
  · intro hp
    simp [MarshalGo, hp]

/-- Witness for C10 amended at the concrete values vPtrNoBM / vNonPtr. -/
theorem marshal_nil_encoding_panic_spec_witness :
    MarshalGo none vPtrNoBM = .nilPanic ∧
    UnmarshalGo none "d" vPtrNoBM = .nilPanic ∧
    MarshalGo none vNonPtr = .err ErrNotAPointerMsg := by
  refine ⟨(marshal_nil_encoding_panic_spec vPtrNoBM none "d").1 rfl rfl,
    (marshal_nil_encoding_panic_spec vPtrNoBM none "d").2.1 rfl rfl,
    (marshal_nil_encoding_panic_spec vNonPtr none "d").2.2.2.2 rfl⟩

end Cache
